import Mathlib

/-!
Verification of the capture/detect/aggregate pipeline of the Yolo-Face-Mask-Detection
front end.  The definitions below are a shallow embedding of the JavaScript code in
src/static/script.js and src/static/script_with_api.js: pure functions become Lean
functions, the mutable globals (totalStats, captureCount, monitoring state) become
explicit state records threaded through step functions, JavaScript numbers are
modelled as rationals, Math.random as a stream of rationals in [0, 1), and browser
APIs (canvas rendering, JSON.stringify, measureText) as oracle parameters.
-/

/-- Bounding box record, pixel coordinates, as produced by the detectors
(script_with_api.js lines 239 to 244). -/
structure BBox where
  x : ℚ
  y : ℚ
  width : ℚ
  height : ℚ
deriving DecidableEq

/-- One detection: class label, confidence and bounding box
(script_with_api.js lines 236 to 245).  The JavaScript field name is
class, a reserved word in Lean, so the field is named cls. -/
structure Detection where
  cls : String
  confidence : ℚ
  bbox : BBox
deriving DecidableEq

/-- Per-batch class counts with the snake_case field names of the API stats object
(script_with_api.js line 253). -/
structure Stats where
  with_mask : ℕ
  without_mask : ℕ
  mask_weared_incorrect : ℕ
deriving DecidableEq

/-- Session counts with the camelCase field names of the global totalStats object
(script_with_api.js lines 7 to 11, script.js lines 7 to 11). -/
structure TotalStats where
  withMask : ℕ
  withoutMask : ℕ
  incorrectMask : ℕ
deriving DecidableEq

/-- The class list of the simulated detector (script_with_api.js line 233,
script.js line 156). -/
def classes : List String := ["with_mask", "without_mask", "mask_weared_incorrect"]

/-- Body of the forEach switch of calculateStatsFromDetections
(script_with_api.js lines 255 to 267): exactly one known bucket is incremented,
any other class label falls through the switch and changes nothing. -/
def statsStep (s : Stats) (d : Detection) : Stats :=
  if d.cls = "with_mask" then { s with with_mask := s.with_mask + 1 }
  else if d.cls = "without_mask" then { s with without_mask := s.without_mask + 1 }
  else if d.cls = "mask_weared_incorrect" then
    { s with mask_weared_incorrect := s.mask_weared_incorrect + 1 }
  else s

/-- calculateStatsFromDetections (script_with_api.js lines 252 to 270): folds the
switch over the detection list starting from the all-zero stats object. -/
def calculateStatsFromDetections (detections : List Detection) : Stats :=
  detections.foldl statsStep { with_mask := 0, without_mask := 0, mask_weared_incorrect := 0 }

/-- Modelled from the spec: unknownCount is the number of detections whose class is
none of the three known labels.  The code has no such function; the spec formula in
its testable properties section uses it as a derived count. -/
def unknownCount (detections : List Detection) : ℕ :=
  detections.countP (fun d =>
    !(d.cls == "with_mask" || d.cls == "without_mask" || d.cls == "mask_weared_incorrect"))

/-- One upload result of script.js (script.js lines 136 to 141), restricted to the
fields calculateStats reads. -/
structure JsResult where
  file : String
  detections : List Detection
deriving DecidableEq

/-- Body of the inner forEach switch of calculateStats (script.js lines 226 to 238),
counting into the camelCase stats object. -/
def statsStepJs (s : TotalStats) (d : Detection) : TotalStats :=
  if d.cls = "with_mask" then { s with withMask := s.withMask + 1 }
  else if d.cls = "without_mask" then { s with withoutMask := s.withoutMask + 1 }
  else if d.cls = "mask_weared_incorrect" then
    { s with incorrectMask := s.incorrectMask + 1 }
  else s

/-- calculateStats (script.js lines 222 to 242): folds the switch over the
detections of every result in the batch. -/
def calculateStats (results : List JsResult) : TotalStats :=
  results.foldl (fun s r => r.detections.foldl statsStepJs s)
    { withMask := 0, withoutMask := 0, incorrectMask := 0 }

/-- updateTotalStats (script_with_api.js lines 330 to 334, script.js lines 245
to 249): adds the three class counts of a batch into the session totals.  The
JavaScript mutates the global totalStats in place; the embedding returns the
updated record. -/
def updateTotalStats (totalStats : TotalStats) (stats : TotalStats) : TotalStats :=
  { withMask := totalStats.withMask + stats.withMask
    withoutMask := totalStats.withoutMask + stats.withoutMask
    incorrectMask := totalStats.incorrectMask + stats.incorrectMask }

/-- Simulated YOLO detectors: Math.random is modelled as a stream of rationals,
indexed by call order.  Call 0 picks the number of detections; detection i then
consumes six further values in source order: class index, confidence, bbox x,
bbox y, bbox width, bbox height. -/
def RandStream : Type := ℕ → ℚ

/-- Detection i fabricated by simulateYOLODetection of script_with_api.js
(lines 232 to 246): class classes[floor(r3)], confidence 0.5 + r0.5, x in the
left half, y in the upper half, width 10 to 40 percent of the image width,
height 10 to 40 percent of the image height.  An out-of-range class index
yields the JavaScript undefined, modelled by the string "undefined". -/
def simDetection (rand : RandStream) (w h : ℚ) (i : ℕ) : Detection :=
  let base := 1 + 6 * i
  { cls := classes.getD (Int.toNat ⌊rand base * 3⌋) "undefined"
    confidence := 1/2 + rand (base + 1) * (1/2)
    bbox :=
      { x := rand (base + 2) * w * (1/2)
        y := rand (base + 3) * h * (1/2)
        width := w * (1/10) + rand (base + 4) * w * (3/10)
        height := h * (1/10) + rand (base + 5) * h * (3/10) } }

/-- simulateYOLODetection (script_with_api.js lines 228 to 249):
floor(random4)+1 detections, each built by simDetection. -/
def simulateYOLODetection (rand : RandStream) (w h : ℚ) : List Detection :=
  let numDetections := Int.toNat ⌊rand 0 * 4⌋ + 1
  (List.range numDetections).map (simDetection rand w h)

/-- Detection i fabricated by simulateYOLODetection of script.js (lines 155
to 168); identical to the script_with_api.js variant except that width and
height start at 20 percent of the image dimension (0.2 instead of 0.1). -/
def simDetectionJs (rand : RandStream) (w h : ℚ) (i : ℕ) : Detection :=
  let base := 1 + 6 * i
  { cls := classes.getD (Int.toNat ⌊rand base * 3⌋) "undefined"
    confidence := 1/2 + rand (base + 1) * (1/2)
    bbox :=
      { x := rand (base + 2) * w * (1/2)
        y := rand (base + 3) * h * (1/2)
        width := w * (1/5) + rand (base + 4) * w * (3/10)
        height := h * (1/5) + rand (base + 5) * h * (3/10) } }

/-- simulateYOLODetection (script.js lines 150 to 172). -/
def simulateYOLODetectionJs (rand : RandStream) (w h : ℚ) : List Detection :=
  let numDetections := Int.toNat ⌊rand 0 * 4⌋ + 1
  (List.range numDetections).map (simDetectionJs rand w h)

/-- Parsed JSON body of a /detect response (script_with_api.js lines 165 to 177).
Every field is optional: a missing JSON field is the JavaScript undefined,
modelled as none. -/
structure ApiBody where
  success : Option Bool
  error : Option String
  detections : Option (List Detection)
  stats : Option Stats
  result_image : Option String
  total_detections : Option ℕ
deriving DecidableEq

/-- Outcome of the fetch call of processImageWithAPI (script_with_api.js lines
159 to 165): the promise rejects, the response is not ok, the body is not JSON,
or a parsed JSON body arrives with status ok. -/
inductive FetchOutcome where
  | netError : FetchOutcome
  | httpFail : ℕ → FetchOutcome
  | httpOkBadJson : FetchOutcome
  | httpOk : ApiBody → FetchOutcome
deriving DecidableEq

/-- Result object produced by processImageWithAPI and processImageSimulation
(script_with_api.js lines 168 to 174 and 213 to 219).  The file field keeps the
file name; the remaining fields are optional because the API branch copies
possibly missing response fields through unchanged. -/
structure ProcResult where
  file : String
  detections : Option (List Detection)
  stats : Option Stats
  resultImage : Option String
  totalDetections : Option ℕ
deriving DecidableEq

/-- Try block of processImageWithAPI (script_with_api.js lines 154 to 180):
ok result on a parsed body whose success field is the JavaScript truthy true,
a thrown error in every other case. -/
def detectTry (file : String) (o : FetchOutcome) : Except String ProcResult :=
  match o with
  | .netError => .error "fetch failed"
  | .httpFail status => .error ("Server error: " ++ toString status)
  | .httpOkBadJson => .error "invalid json"
  | .httpOk body =>
      if body.success = some true then
        .ok { file := file
              detections := body.detections
              stats := body.stats
              resultImage := body.result_image
              totalDetections := body.total_detections }
      else .error (body.error.getD "Detection failed")

/-- processImageSimulation (script_with_api.js lines 189 to 225): runs the
simulated detector on the decoded image, computes stats, draws boxes on a
canvas and returns its data URL.  Canvas rendering is a browser API, modelled
by the oracle parameter render. -/
def processImageSimulation (rand : RandStream) (w h : ℚ)
    (render : ℚ → ℚ → List Detection → String) (file : String) : ProcResult :=
  let detections := simulateYOLODetection rand w h
  { file := file
    detections := some detections
    stats := some (calculateStatsFromDetections detections)
    resultImage := some (render w h detections)
    totalDetections := some detections.length }

/-- processImageWithAPI (script_with_api.js lines 153 to 186): the catch clause
turns every thrown error into the simulation fallback, so the function always
returns a plain result and never propagates an error. -/
def processImageWithAPI (rand : RandStream) (w h : ℚ)
    (render : ℚ → ℚ → List Detection → String) (file : String)
    (o : FetchOutcome) : ProcResult :=
  match detectTry file o with
  | .ok r => r
  | .error _ => processImageSimulation rand w h render file

/-- Batch totals loop of displayUploadResults, displayCameraResults and
displayMonitoringResults (script_with_api.js lines 281 to 287, 562 to 568,
736 to 742): results without a stats field contribute nothing. -/
def batchTotals (results : List ProcResult) : TotalStats :=
  results.foldl (fun t r =>
    match r.stats with
    | some s =>
        { withMask := t.withMask + s.with_mask
          withoutMask := t.withoutMask + s.without_mask
          incorrectMask := t.incorrectMask + s.mask_weared_incorrect }
    | none => t)
    { withMask := 0, withoutMask := 0, incorrectMask := 0 }

/-- The two mutable session globals of script_with_api.js (lines 2 to 11):
the cumulative totalStats record and the captureCount counter. -/
structure SessionState where
  totalStats : TotalStats
  captureCount : ℕ
deriving DecidableEq

/-- Session-state effect of displayUploadResults (script_with_api.js lines 273
to 327): folds the batch totals into the global totalStats via updateTotalStats
and leaves captureCount untouched. -/
def uploadBatchStep (st : SessionState) (results : List ProcResult) : SessionState :=
  { totalStats := updateTotalStats st.totalStats (batchTotals results)
    captureCount := st.captureCount }

/-- Session-state effect of displayCameraResults (script_with_api.js lines 554
to 602): identical to the upload batch for the session globals. -/
def cameraBatchStep (st : SessionState) (results : List ProcResult) : SessionState :=
  { totalStats := updateTotalStats st.totalStats (batchTotals results)
    captureCount := st.captureCount }

/-- Session-state effect of one monitoring capture (captureMonitoringPhoto,
script_with_api.js lines 699 to 725): when monitoring is active the capture
counter is incremented exactly once and displayMonitoringResults folds the
stats of the single result into the session totals; when monitoring is
inactive the function returns before doing anything. -/
def monitoringCaptureStep (st : SessionState) (monitoringActive : Bool)
    (result : ProcResult) : SessionState :=
  if monitoringActive then
    { totalStats := updateTotalStats st.totalStats (batchTotals [result])
      captureCount := st.captureCount + 1 }
  else st

/-- Alert decision of displayUploadResults (script_with_api.js lines 322 to
327): showAlert and playAlertSound are both inside a single condition that
also requires the soundAlerts checkbox not to be explicitly unchecked.  The
checkbox is read with optional chaining, so a missing element (none) counts
as not unchecked. -/
def uploadAlertFires (withoutMask : ℕ) (soundAlerts : Option Bool) : Bool :=
  decide (0 < withoutMask) && !(soundAlerts == some false)

/-- Alert decision of displayCameraResults (script_with_api.js lines 595 to
602): showAlert fires whenever the batch has a positive without-mask count;
only the sound is gated on the checkbox. -/
def cameraAlertFires (withoutMask : ℕ) : Bool :=
  decide (0 < withoutMask)

/-- Alert decision of displayMonitoringResults (script_with_api.js lines 780
to 787): showAlert fires whenever the batch has a positive without-mask
count; only the sound is gated on the checkbox. -/
def monitoringAlertFires (withoutMask : ℕ) : Bool :=
  decide (0 < withoutMask)

/-- Monitoring scheduler state (script_with_api.js lines 2 to 6 and 673 to
697): the monitoringActive flag, the countdown local of scheduleNextCapture,
whether the one-second interval has been cleared, and the number of scheduled
captures triggered so far. -/
structure MonState where
  monitoringActive : Bool
  countdown : ℤ
  countdownCleared : Bool
  captures : ℕ
deriving DecidableEq

/-- Body of the updateCountdown closure (script_with_api.js lines 679 to 693):
a no-op when monitoring is inactive; at countdown zero it clears the interval
and triggers captureMonitoringPhoto (which, with monitoring active, performs
one capture); otherwise it decrements the countdown. -/
def updateCountdown (s : MonState) : MonState :=
  if s.monitoringActive = false then s
  else if s.countdown ≤ 0 then
    { s with countdownCleared := true, captures := s.captures + 1 }
  else { s with countdown := s.countdown - 1 }

/-- One firing of the setInterval timer (script_with_api.js line 696): the
callback runs only while the interval has not been cleared. -/
def intervalTick (s : MonState) : MonState :=
  if s.countdownCleared then s else updateCountdown s

/-- scheduleNextCapture entry (script_with_api.js lines 673 to 696): with
monitoring active, the countdown starts at the configured interval, the
closure runs once immediately, and the one-second interval is installed. -/
def scheduleNextCapture (intervalSeconds : ℤ) : MonState :=
  updateCountdown
    { monitoringActive := true, countdown := intervalSeconds
      countdownCleared := false, captures := 0 }

/-- stopMonitoring effect on the scheduler state (script_with_api.js lines 641
to 652): deactivates monitoring and clears the countdown interval.  Captures
already performed are unaffected. -/
def stopMonitoringState (s : MonState) : MonState :=
  { s with monitoringActive := false, countdownCleared := true }

/-- Iterated one-second interval firings. -/
def runTicks (n : ℕ) (s : MonState) : MonState :=
  intervalTick^[n] s

/-- Source image for the canvas model: dimensions plus an abstract pixel
function giving the color value at every source coordinate. -/
structure CanvasImage where
  width : ℚ
  height : ℚ
  pixel : ℚ → ℚ → ℚ

/-- Destination canvas produced by a crop: none is a transparent (unpainted)
pixel, as on a freshly created canvas. -/
structure CroppedCanvas where
  width : ℚ
  height : ℚ
  pixel : ℚ → ℚ → Option ℚ

/-- Pixel contract of the canvas drawImage call as used at script.js line 342,
where the destination rectangle has the same size as the source rectangle, so
no scaling occurs.  drawImage is a browser API, external to the repository:
per the HTML canvas contract the source rectangle is clipped to the source
image, the clipped-away part of the destination stays transparent, and a
non-positive source width or height paints nothing. -/
def drawImageCrop (img : CanvasImage) (sx sy sw sh : ℚ) : ℚ → ℚ → Option ℚ :=
  fun dx dy =>
    if 0 ≤ dx ∧ dx < sw ∧ 0 ≤ dy ∧ dy < sh
        ∧ 0 ≤ sx + dx ∧ sx + dx < img.width
        ∧ 0 ≤ sy + dy ∧ sy + dy < img.height then
      some (img.pixel (sx + dx) (sy + dy))
    else none

/-- One iteration of the createCroppedFaces loop (script.js lines 333 to 342):
a canvas sized to the bounding box, painted by drawImage with source and
destination rectangles both equal to the box. -/
def cropFace (img : CanvasImage) (bbox : BBox) : CroppedCanvas :=
  { width := bbox.width
    height := bbox.height
    pixel := drawImageCrop img bbox.x bbox.y bbox.width bbox.height }

/-- createCroppedFaces (script.js lines 330 to 352), restricted to the cropped
canvases it builds; the surrounding HTML string is presentation. -/
def createCroppedFaces (img : CanvasImage) (detections : List Detection) :
    List CroppedCanvas :=
  detections.map (fun d => cropFace img d.bbox)

/-- A bounding box whose intersection with the image has zero area: the box
itself is degenerate or lies fully outside the image. -/
def clippedRegionEmpty (img : CanvasImage) (bbox : BBox) : Prop :=
  bbox.width ≤ 0 ∨ bbox.height ≤ 0
    ∨ bbox.x + bbox.width ≤ 0 ∨ img.width ≤ bbox.x
    ∨ bbox.y + bbox.height ≤ 0 ∨ img.height ≤ bbox.y

/-- First-occurrence character replacement, the behavior of the JavaScript
String.replace with a one-character string pattern. -/
def replaceFirstChar : List Char → Char → Char → List Char
  | [], _, _ => []
  | c :: cs, a, b => if c = a then b :: cs else c :: replaceFirstChar cs a b

/-- The label transformation detection.class.replace of script_with_api.js line
474 and script.js line 317: only the first underscore becomes a space. -/
def replaceFirstUnderscore (s : String) : String :=
  ⟨replaceFirstChar s.data '_' ' '⟩

/-- Number.prototype.toFixed(1) for nonnegative values, as applied to
confidence*100: rounds to one decimal, ties away from zero upward, and prints
one digit after the decimal point. -/
def toFixed1 (q : ℚ) : String :=
  let n : ℤ := ⌊q * 10 + 1/2⌋
  toString (n / 10) ++ "." ++ toString (n % 10)

/-- Color table plus default of drawBoundingBox (script_with_api.js lines 460
to 466, script.js lines 303 to 309): the three known classes map to green,
red and amber; every other class falls back to gray via the JavaScript
or-default. -/
def boxColor (cls : String) : String :=
  if cls = "with_mask" then "#38a169"
  else if cls = "without_mask" then "#e53e3e"
  else if cls = "mask_weared_incorrect" then "#d69e2e"
  else "#4a5568"

/-- Label string of drawBoundingBox (script_with_api.js line 474): class name
with the first underscore replaced by a space, a space, and the confidence as
a percentage with one decimal place. -/
def labelText (d : Detection) : String :=
  replaceFirstUnderscore d.cls ++ " " ++ toFixed1 (d.confidence * 100) ++ "%"

/-- Canvas drawing commands issued by drawBoundingBox, in order: a stroked
rectangle, a filled rectangle and a filled text run, each with the style in
effect when it executes. -/
inductive DrawCmd where
  | strokeRect : String → ℚ → ℚ → ℚ → ℚ → ℚ → DrawCmd
  | fillRect : String → ℚ → ℚ → ℚ → ℚ → DrawCmd
  | fillText : String → String → ℚ → ℚ → DrawCmd
deriving DecidableEq

/-- drawBoundingBox (script_with_api.js lines 459 to 484, identical in
script.js lines 302 to 327): strokes the box with line width 3 in the class
color, fills the label background at (x, y-25) sized (textWidth+10) by 25,
and writes the white label with its baseline at y-8.  The canvas measureText
call is a browser API, modelled by the oracle parameter measureText. -/
def drawBoundingBox (measureText : String → ℚ) (d : Detection) : List DrawCmd :=
  let color := boxColor d.cls
  let label := labelText d
  let textWidth := measureText label
  [ DrawCmd.strokeRect color 3 d.bbox.x d.bbox.y d.bbox.width d.bbox.height
  , DrawCmd.fillRect color d.bbox.x (d.bbox.y - 25) (textWidth + 10) 25
  , DrawCmd.fillText "white" label (d.bbox.x + 5) (d.bbox.y - 8) ]

/-- CSV body built by downloadResults (script_with_api.js lines 867 to 868):
one header row and one data row. -/
def csvContent (timestamp : String) (t : TotalStats) (captureCount : ℕ) : String :=
  "Timestamp,With Mask,Without Mask,Incorrect Mask,Total Captures\n"
    ++ timestamp ++ "," ++ toString t.withMask ++ "," ++ toString t.withoutMask
    ++ "," ++ toString t.incorrectMask ++ "," ++ toString captureCount

/-- Observable effect of downloadResults (script_with_api.js lines 849 to 884):
the content, filename and mimeType locals (none models the JavaScript
undefined left by an unrecognized format), the parts list passed to the Blob
constructor, and whether the anchor click that triggers the download ran. -/
structure DownloadAction where
  content : Option String
  filename : Option String
  mimeType : Option String
  blobParts : List (Option String)
  clicked : Bool
deriving DecidableEq

/-- downloadResults (script_with_api.js lines 849 to 884).  JSON.stringify of
the results record and the date prefix of the file name are browser values,
passed in as jsonText and dateStr; timestamp, totals and capture count fill
the CSV branch.  The blob construction and the anchor click run regardless of
which branch, if any, assigned the locals. -/
def downloadResults (jsonText dateStr timestamp : String) (t : TotalStats)
    (captureCount : ℕ) (format : String) : DownloadAction :=
  let content : Option String :=
    if format = "json" then some jsonText
    else if format = "csv" then some (csvContent timestamp t captureCount)
    else none
  let filename : Option String :=
    if format = "json" then some ("mask_detection_results_" ++ dateStr ++ ".json")
    else if format = "csv" then some ("mask_detection_results_" ++ dateStr ++ ".csv")
    else none
  let mimeType : Option String :=
    if format = "json" then some "application/json"
    else if format = "csv" then some "text/csv"
    else none
  { content := content
    filename := filename
    mimeType := mimeType
    blobParts := [content]
    clicked := true }

/-- Closed form of the calculateStatsFromDetections fold: each known bucket is
exactly the number of detections carrying that class label. -/
theorem statsFold_eq (l : List Detection) (s : Stats) :
    l.foldl statsStep s =
      { with_mask := s.with_mask + l.countP (fun d => d.cls == "with_mask")
        without_mask := s.without_mask + l.countP (fun d => d.cls == "without_mask")
        mask_weared_incorrect :=
          s.mask_weared_incorrect + l.countP (fun d => d.cls == "mask_weared_incorrect") } := by
  induction l generalizing s with
  | nil => simp [List.countP_nil]
  | cons d l ih =>
      rw [List.foldl_cons, ih]
      simp only [List.countP_cons]
      by_cases h1 : d.cls = "with_mask"
      · simp [statsStep, h1]
        omega
      · by_cases h2 : d.cls = "without_mask"
        · simp [statsStep, h1, h2]
          omega
        · by_cases h3 : d.cls = "mask_weared_incorrect"
          · simp [statsStep, h1, h2, h3]
            omega
          · simp [statsStep, h1, h2, h3]

/-- The four class predicates are a partition of any detection list: the three
known buckets plus the unknown bucket count every detection exactly once. -/
theorem countP_classes_partition (l : List Detection) :
    l.countP (fun d => d.cls == "with_mask")
      + l.countP (fun d => d.cls == "without_mask")
      + l.countP (fun d => d.cls == "mask_weared_incorrect")
      + unknownCount l = l.length := by
  induction l with
  | nil => rfl
  | cons d l ih =>
      simp only [unknownCount, List.countP_cons, List.length_cons] at *
      by_cases h1 : d.cls = "with_mask"
      · simp [h1] at *
        omega
      · by_cases h2 : d.cls = "without_mask"
        · simp [h1, h2] at *
          omega
        · by_cases h3 : d.cls = "mask_weared_incorrect"
          · simp [h1, h2, h3] at *
            omega
          · simp [h1, h2, h3] at *
            omega

/-- Closed form of the inner calculateStats fold of script.js. -/
theorem statsFoldJs_eq (l : List Detection) (s : TotalStats) :
    l.foldl statsStepJs s =
      { withMask := s.withMask + l.countP (fun d => d.cls == "with_mask")
        withoutMask := s.withoutMask + l.countP (fun d => d.cls == "without_mask")
        incorrectMask :=
          s.incorrectMask + l.countP (fun d => d.cls == "mask_weared_incorrect") } := by
  induction l generalizing s with
  | nil => simp [List.countP_nil]
  | cons d l ih =>
      rw [List.foldl_cons, ih]
      simp only [List.countP_cons]
      by_cases h1 : d.cls = "with_mask"
      · simp [statsStepJs, h1]
        omega
      · by_cases h2 : d.cls = "without_mask"
        · simp [statsStepJs, h1, h2]
          omega
        · by_cases h3 : d.cls = "mask_weared_incorrect"
          · simp [statsStepJs, h1, h2, h3]
            omega
          · simp [statsStepJs, h1, h2, h3]

/-- All detections of a script.js batch, in traversal order. -/
def batchDetections (results : List JsResult) : List Detection :=
  (results.map JsResult.detections).flatten

/-- calculateStats of script.js counts exactly over the concatenation of the
detection lists of the batch. -/
theorem calculateStats_eq (results : List JsResult) :
    calculateStats results =
      { withMask := (batchDetections results).countP (fun d => d.cls == "with_mask")
        withoutMask := (batchDetections results).countP (fun d => d.cls == "without_mask")
        incorrectMask :=
          (batchDetections results).countP (fun d => d.cls == "mask_weared_incorrect") } := by
  have main : ∀ (rs : List JsResult) (s : TotalStats),
      rs.foldl (fun s r => r.detections.foldl statsStepJs s) s =
        { withMask := s.withMask + (batchDetections rs).countP (fun d => d.cls == "with_mask")
          withoutMask :=
            s.withoutMask + (batchDetections rs).countP (fun d => d.cls == "without_mask")
          incorrectMask :=
            s.incorrectMask
              + (batchDetections rs).countP (fun d => d.cls == "mask_weared_incorrect") } := by
    intro rs
    induction rs with
    | nil => intro s; simp [batchDetections, List.countP_nil]
    | cons r rs ih =>
        intro s
        rw [List.foldl_cons, ih, statsFoldJs_eq]
        simp [batchDetections, List.countP_append]
        omega
  rw [calculateStats, main]
  simp

/-- C2: the class counts partition every detection sequence.  For
calculateStatsFromDetections of script_with_api.js, the three known buckets
plus the unknown count equal the length of the input, and every known bucket
is exactly the number of detections with that class label, so a detection
with an unknown label is never added to a known bucket.  The same partition
holds for calculateStats of script.js over the detections of a whole batch. -/
theorem claim_stats_partition (D : List Detection) (results : List JsResult) :
    ((calculateStatsFromDetections D).with_mask
        + (calculateStatsFromDetections D).without_mask
        + (calculateStatsFromDetections D).mask_weared_incorrect
        + unknownCount D = D.length)
  ∧ (calculateStatsFromDetections D).with_mask
        = D.countP (fun d => d.cls == "with_mask")
  ∧ (calculateStatsFromDetections D).without_mask
        = D.countP (fun d => d.cls == "without_mask")
  ∧ (calculateStatsFromDetections D).mask_weared_incorrect
        = D.countP (fun d => d.cls == "mask_weared_incorrect")
  ∧ ((calculateStats results).withMask + (calculateStats results).withoutMask
        + (calculateStats results).incorrectMask + unknownCount (batchDetections results)
        = (batchDetections results).length)
  ∧ (calculateStats results).withMask
        = (batchDetections results).countP (fun d => d.cls == "with_mask")
  ∧ (calculateStats results).withoutMask
        = (batchDetections results).countP (fun d => d.cls == "without_mask")
  ∧ (calculateStats results).incorrectMask
        = (batchDetections results).countP (fun d => d.cls == "mask_weared_incorrect") := by
  have h1 := statsFold_eq D { with_mask := 0, without_mask := 0, mask_weared_incorrect := 0 }
  have h2 := countP_classes_partition D
  have h3 := calculateStats_eq results
  have h4 := countP_classes_partition (batchDetections results)
  refine ⟨?_, ?_, ?_, ?_, ?_, ?_, ?_, ?_⟩
  · rw [calculateStatsFromDetections, h1]
    simpa using h2
  · rw [calculateStatsFromDetections, h1]
    simp
  · rw [calculateStatsFromDetections, h1]
    simp
  · rw [calculateStatsFromDetections, h1]
    simp
  · rw [h3]
    simpa using h4
  · rw [h3]
  · rw [h3]
  · rw [h3]

/-- C3 counterexample: an upload batch folded into a zeroed session leaves
captureCount at 0, not old value plus one, refuting the claim that every
processed batch advances captureCount.  Only monitoring captures do. -/
theorem claim_accumulate_captureCount_cex :
    (uploadBatchStep { totalStats := { withMask := 0, withoutMask := 0, incorrectMask := 0 }
                       captureCount := 0 }
        [{ file := "a.jpg", detections := some [], stats := some ⟨0, 1, 0⟩
           resultImage := none, totalDetections := some 1 }]).captureCount ≠ 0 + 1 := by
  decide

/-- C3 amended: updateTotalStats is strictly additive in all three class
fields; the upload and camera batch paths never change captureCount, while an
active monitoring capture increments captureCount by exactly one regardless of
how many detections its result carries. -/
theorem claim_accumulate_additive (t s : TotalStats) (st : SessionState)
    (results : List ProcResult) (r : ProcResult) :
    (updateTotalStats t s).withMask = t.withMask + s.withMask
  ∧ (updateTotalStats t s).withoutMask = t.withoutMask + s.withoutMask
  ∧ (updateTotalStats t s).incorrectMask = t.incorrectMask + s.incorrectMask
  ∧ (uploadBatchStep st results).totalStats
        = updateTotalStats st.totalStats (batchTotals results)
  ∧ (uploadBatchStep st results).captureCount = st.captureCount
  ∧ (cameraBatchStep st results).captureCount = st.captureCount
  ∧ (monitoringCaptureStep st true r).captureCount = st.captureCount + 1
  ∧ (monitoringCaptureStep st true r).totalStats
        = updateTotalStats st.totalStats (batchTotals [r]) := by
  refine ⟨rfl, rfl, rfl, rfl, rfl, rfl, ?_, ?_⟩
  · simp [monitoringCaptureStep]
  · simp [monitoringCaptureStep]

/-- C4 counterexample: in upload mode the user-facing alert is gated on the
sound-alerts checkbox, so a batch with one unmasked person and the checkbox
unchecked emits no alert, refuting unconditional alerting in all three modes. -/
theorem claim_alert_upload_cex :
    uploadAlertFires 1 (some false) = false ∧ 0 < 1 := by
  decide

/-- C4 amended: camera and monitoring batches emit the user-facing alert
whenever the without-mask count is positive; the upload batch emits it exactly
when the count is positive and the sound-alerts checkbox is not explicitly
unchecked. -/
theorem claim_alert_positive_count (n : ℕ) (soundAlerts : Option Bool) :
    (0 < n → cameraAlertFires n = true)
  ∧ (0 < n → monitoringAlertFires n = true)
  ∧ (uploadAlertFires n soundAlerts = true ↔ 0 < n ∧ soundAlerts ≠ some false) := by
  refine ⟨?_, ?_, ?_⟩
  · intro h
    simpa [cameraAlertFires] using h
  · intro h
    simpa [monitoringAlertFires] using h
  · simp [uploadAlertFires]

/-- C4 amended witness at a concrete input: one unmasked person triggers the
camera and monitoring alerts, and the upload alert when the checkbox element
is absent. -/
theorem claim_alert_positive_count_witness :
    cameraAlertFires 2 = true ∧ monitoringAlertFires 3 = true
      ∧ uploadAlertFires 1 none = true := by
  refine ⟨(claim_alert_positive_count 2 none).1 (by decide),
          (claim_alert_positive_count 3 none).2.1 (by decide),
          (claim_alert_positive_count 1 none).2.2.mpr ⟨by decide, by decide⟩⟩

/-- C10: for any format other than json and csv, downloadResults leaves
content, filename and mimeType unassigned, yet still builds the blob from the
unassigned content and triggers the download click. -/
theorem claim_download_unknown_format (jsonText dateStr timestamp : String)
    (t : TotalStats) (captureCount : ℕ) (format : String)
    (hj : format ≠ "json") (hc : format ≠ "csv") :
    (downloadResults jsonText dateStr timestamp t captureCount format).content = none
  ∧ (downloadResults jsonText dateStr timestamp t captureCount format).filename = none
  ∧ (downloadResults jsonText dateStr timestamp t captureCount format).mimeType = none
  ∧ (downloadResults jsonText dateStr timestamp t captureCount format).blobParts = [none]
  ∧ (downloadResults jsonText dateStr timestamp t captureCount format).clicked = true := by
  simp [downloadResults, hj, hc]

/-- C10 witness: the format string xml is neither json nor csv, and the
download still fires with all three locals unassigned. -/
theorem claim_download_unknown_format_witness :
    (downloadResults "jsonbody" "2026-10-11" "now" ⟨1, 2, 3⟩ 4 "xml").content = none
  ∧ (downloadResults "jsonbody" "2026-10-11" "now" ⟨1, 2, 3⟩ 4 "xml").filename = none
  ∧ (downloadResults "jsonbody" "2026-10-11" "now" ⟨1, 2, 3⟩ 4 "xml").mimeType = none
  ∧ (downloadResults "jsonbody" "2026-10-11" "now" ⟨1, 2, 3⟩ 4 "xml").blobParts = [none]
  ∧ (downloadResults "jsonbody" "2026-10-11" "now" ⟨1, 2, 3⟩ 4 "xml").clicked = true :=
  claim_download_unknown_format "jsonbody" "2026-10-11" "now" ⟨1, 2, 3⟩ 4 "xml"
    (by decide) (by decide)

/-- Bounds of a product with a unit-interval factor. -/
theorem unit_mul (r c : ℚ) (h0 : 0 ≤ r) (h1 : r < 1) (hc : 0 < c) :
    0 ≤ r * c ∧ r * c < c :=
  ⟨mul_nonneg h0 hc.le, by nlinarith⟩

/-- The detection count floor(random4)+1 lies between 1 and 4 when the random
value lies in the unit interval. -/
theorem floorCount_bounds (r : ℚ) (h0 : 0 ≤ r) (h1 : r < 1) :
    1 ≤ Int.toNat ⌊r * 4⌋ + 1 ∧ Int.toNat ⌊r * 4⌋ + 1 ≤ 4 := by
  have hlt : ⌊r * 4⌋ < 4 := Int.floor_lt.mpr (by push_cast; linarith)
  have hge : (0 : ℤ) ≤ ⌊r * 4⌋ := Int.floor_nonneg.mpr (by linarith)
  omega

/-- The random class selector lands in the class list when the random value
lies in the unit interval. -/
theorem classIdx_mem (r : ℚ) (h0 : 0 ≤ r) (h1 : r < 1) :
    classes.getD (Int.toNat ⌊r * 3⌋) "undefined" ∈ classes := by
  have hlt : ⌊r * 3⌋ < 3 := Int.floor_lt.mpr (by push_cast; linarith)
  have hge : (0 : ℤ) ≤ ⌊r * 3⌋ := Int.floor_nonneg.mpr (by linarith)
  have hcases : Int.toNat ⌊r * 3⌋ = 0 ∨ Int.toNat ⌊r * 3⌋ = 1 ∨ Int.toNat ⌊r * 3⌋ = 2 := by
    omega
  rcases hcases with hi | hi | hi <;> rw [hi] <;> decide

/-- Per-detection bounds of the script_with_api.js simulated detector. -/
theorem simDetection_bounds (rand : RandStream) (w h : ℚ) (i : ℕ)
    (hr : ∀ n, 0 ≤ rand n ∧ rand n < 1) (hw : 0 < w) (hh : 0 < h) :
    (simDetection rand w h i).cls ∈ classes
  ∧ 1/2 ≤ (simDetection rand w h i).confidence
  ∧ (simDetection rand w h i).confidence < 1
  ∧ 0 ≤ (simDetection rand w h i).bbox.x
  ∧ (simDetection rand w h i).bbox.x < w * (3/4)
  ∧ 0 ≤ (simDetection rand w h i).bbox.y
  ∧ (simDetection rand w h i).bbox.y < h * (3/4)
  ∧ w * (1/10) ≤ (simDetection rand w h i).bbox.width
  ∧ (simDetection rand w h i).bbox.width < w * (2/5)
  ∧ h * (1/10) ≤ (simDetection rand w h i).bbox.height
  ∧ (simDetection rand w h i).bbox.height < h * (2/5) := by
  obtain ⟨hc0, hc1⟩ :=
    unit_mul (rand (1 + 6 * i + 1)) (1/2) (hr _).1 (hr _).2 (by norm_num)
  obtain ⟨hx0, hx1⟩ := unit_mul (rand (1 + 6 * i + 2)) w (hr _).1 (hr _).2 hw
  obtain ⟨hy0, hy1⟩ := unit_mul (rand (1 + 6 * i + 3)) h (hr _).1 (hr _).2 hh
  obtain ⟨hw0, hw1⟩ := unit_mul (rand (1 + 6 * i + 4)) w (hr _).1 (hr _).2 hw
  obtain ⟨hh0, hh1⟩ := unit_mul (rand (1 + 6 * i + 5)) h (hr _).1 (hr _).2 hh
  simp only [simDetection]
  refine ⟨classIdx_mem _ (hr _).1 (hr _).2, ?_, ?_, ?_, ?_, ?_, ?_, ?_, ?_, ?_, ?_⟩ <;>
    linarith

/-- Per-detection bounds of the script.js simulated detector: identical except
that width and height run from 20 to 50 percent of the image dimensions. -/
theorem simDetectionJs_bounds (rand : RandStream) (w h : ℚ) (i : ℕ)
    (hr : ∀ n, 0 ≤ rand n ∧ rand n < 1) (hw : 0 < w) (hh : 0 < h) :
    (simDetectionJs rand w h i).cls ∈ classes
  ∧ 1/2 ≤ (simDetectionJs rand w h i).confidence
  ∧ (simDetectionJs rand w h i).confidence < 1
  ∧ 0 ≤ (simDetectionJs rand w h i).bbox.x
  ∧ (simDetectionJs rand w h i).bbox.x < w * (3/4)
  ∧ 0 ≤ (simDetectionJs rand w h i).bbox.y
  ∧ (simDetectionJs rand w h i).bbox.y < h * (3/4)
  ∧ w * (1/5) ≤ (simDetectionJs rand w h i).bbox.width
  ∧ (simDetectionJs rand w h i).bbox.width < w * (1/2)
  ∧ h * (1/5) ≤ (simDetectionJs rand w h i).bbox.height
  ∧ (simDetectionJs rand w h i).bbox.height < h * (1/2) := by
  obtain ⟨hc0, hc1⟩ :=
    unit_mul (rand (1 + 6 * i + 1)) (1/2) (hr _).1 (hr _).2 (by norm_num)
  obtain ⟨hx0, hx1⟩ := unit_mul (rand (1 + 6 * i + 2)) w (hr _).1 (hr _).2 hw
  obtain ⟨hy0, hy1⟩ := unit_mul (rand (1 + 6 * i + 3)) h (hr _).1 (hr _).2 hh
  obtain ⟨hw0, hw1⟩ := unit_mul (rand (1 + 6 * i + 4)) w (hr _).1 (hr _).2 hw
  obtain ⟨hh0, hh1⟩ := unit_mul (rand (1 + 6 * i + 5)) h (hr _).1 (hr _).2 hh
  simp only [simDetectionJs]
  refine ⟨classIdx_mem _ (hr _).1 (hr _).2, ?_, ?_, ?_, ?_, ?_, ?_, ?_, ?_, ?_, ?_⟩ <;>
    linarith

/-- C6 counterexample: the script.js variant of simulateYOLODetection can
fabricate a box wider than 40 percent of the image.  With random values 0 (for
the count) and 9/10 (for everything else) on a 100 by 100 image it produces a
single detection whose width and height are 47, above the claimed 40 percent
maximum.  Both random values lie in the unit interval, so the input is a
legitimate Math.random trace. -/
theorem claim_sim_detector_size_cex :
    simulateYOLODetectionJs (fun n => if n = 0 then 0 else 9/10) 100 100
      = [{ cls := "mask_weared_incorrect", confidence := 19/20
           bbox := { x := 45, y := 45, width := 47, height := 47 } }]
  ∧ ¬((47 : ℚ) ≤ 100 * (2/5)) := by
  constructor
  · norm_num [simulateYOLODetectionJs, simDetectionJs, classes, List.range_succ]
    decide
  · norm_num

/-- C6 amended: for every unit-interval random stream and positive image
dimensions, both simulated detectors fabricate between 1 and 4 detections,
each with a class from the three known labels, confidence in [1/2, 1), and a
box position inside the upper-left quarter (hence inside the upper-left 3/4
area) of the image; the script_with_api.js variant sizes each axis between 10
and 40 percent of the image dimension, while the script.js variant sizes it
between 20 and 50 percent. -/
theorem claim_sim_detector_ranges (rand : RandStream) (w h : ℚ)
    (hr : ∀ n, 0 ≤ rand n ∧ rand n < 1) (hw : 0 < w) (hh : 0 < h) :
    (1 ≤ (simulateYOLODetection rand w h).length
      ∧ (simulateYOLODetection rand w h).length ≤ 4)
  ∧ (∀ d ∈ simulateYOLODetection rand w h,
        d.cls ∈ classes
      ∧ 1/2 ≤ d.confidence ∧ d.confidence < 1
      ∧ 0 ≤ d.bbox.x ∧ d.bbox.x < w * (3/4)
      ∧ 0 ≤ d.bbox.y ∧ d.bbox.y < h * (3/4)
      ∧ w * (1/10) ≤ d.bbox.width ∧ d.bbox.width < w * (2/5)
      ∧ h * (1/10) ≤ d.bbox.height ∧ d.bbox.height < h * (2/5))
  ∧ (1 ≤ (simulateYOLODetectionJs rand w h).length
      ∧ (simulateYOLODetectionJs rand w h).length ≤ 4)
  ∧ (∀ d ∈ simulateYOLODetectionJs rand w h,
        d.cls ∈ classes
      ∧ 1/2 ≤ d.confidence ∧ d.confidence < 1
      ∧ 0 ≤ d.bbox.x ∧ d.bbox.x < w * (3/4)
      ∧ 0 ≤ d.bbox.y ∧ d.bbox.y < h * (3/4)
      ∧ w * (1/5) ≤ d.bbox.width ∧ d.bbox.width < w * (1/2)
      ∧ h * (1/5) ≤ d.bbox.height ∧ d.bbox.height < h * (1/2)) := by
  refine ⟨?_, ?_, ?_, ?_⟩
  · simpa [simulateYOLODetection] using floorCount_bounds (rand 0) (hr 0).1 (hr 0).2
  · intro d hd
    simp only [simulateYOLODetection, List.mem_map, List.mem_range] at hd
    obtain ⟨i, _, rfl⟩ := hd
    exact simDetection_bounds rand w h i hr hw hh
  · simpa [simulateYOLODetectionJs] using floorCount_bounds (rand 0) (hr 0).1 (hr 0).2
  · intro d hd
    simp only [simulateYOLODetectionJs, List.mem_map, List.mem_range] at hd
    obtain ⟨i, _, rfl⟩ := hd
    exact simDetectionJs_bounds rand w h i hr hw hh

/-- C6 amended witness: the constant stream 1/2 on a 200 by 200 image is a
unit-interval stream, and both detectors then fabricate between 1 and 4
detections. -/
theorem claim_sim_detector_ranges_witness :
    (1 ≤ (simulateYOLODetection (fun _ => 1/2) 200 200).length
      ∧ (simulateYOLODetection (fun _ => 1/2) 200 200).length ≤ 4)
  ∧ (1 ≤ (simulateYOLODetectionJs (fun _ => 1/2) 200 200).length
      ∧ (simulateYOLODetectionJs (fun _ => 1/2) 200 200).length ≤ 4) :=
  ⟨(claim_sim_detector_ranges (fun _ => 1/2) 200 200 (fun _ => by norm_num)
      (by norm_num) (by norm_num)).1,
   (claim_sim_detector_ranges (fun _ => 1/2) 200 200 (fun _ => by norm_num)
      (by norm_num) (by norm_num)).2.2.1⟩

/-- C5 counterexample: a response whose body has success true but is missing
every other field is not treated as a failure.  processImageWithAPI passes the
malformed result through with an undefined detections field instead of
returning the simulation fallback. -/
theorem claim_detect_missing_fields_cex :
    (processImageWithAPI (fun _ => 0) 100 100 (fun _ _ _ => "") "f"
        (FetchOutcome.httpOk
          { success := some true, error := none, detections := none
            stats := none, result_image := none, total_detections := none })).detections
      = none
  ∧ processImageWithAPI (fun _ => 0) 100 100 (fun _ _ _ => "") "f"
        (FetchOutcome.httpOk
          { success := some true, error := none, detections := none
            stats := none, result_image := none, total_detections := none })
      ≠ processImageSimulation (fun _ => 0) 100 100 (fun _ _ _ => "") "f" := by
  constructor
  · rfl
  · intro hEq
    have h2 := congrArg ProcResult.detections hEq
    simp [processImageWithAPI, detectTry, processImageSimulation] at h2

/-- C5 amended: processImageWithAPI always returns a plain result.  A network
error, a non-ok HTTP status, a non-JSON body, and a JSON body whose success
field is anything but true are all absorbed into the simulation fallback; a
body with success true is passed through field by field, even when its other
fields are missing. -/
theorem claim_detect_never_raises (rand : RandStream) (w h : ℚ)
    (render : ℚ → ℚ → List Detection → String) (file : String) :
    processImageWithAPI rand w h render file .netError
        = processImageSimulation rand w h render file
  ∧ (∀ status, processImageWithAPI rand w h render file (.httpFail status)
        = processImageSimulation rand w h render file)
  ∧ processImageWithAPI rand w h render file .httpOkBadJson
        = processImageSimulation rand w h render file
  ∧ (∀ body, body.success ≠ some true →
        processImageWithAPI rand w h render file (.httpOk body)
          = processImageSimulation rand w h render file)
  ∧ (∀ body, body.success = some true →
        processImageWithAPI rand w h render file (.httpOk body)
          = { file := file, detections := body.detections, stats := body.stats
              resultImage := body.result_image
              totalDetections := body.total_detections })
  ∧ (∀ o, processImageWithAPI rand w h render file o
          = processImageSimulation rand w h render file
        ∨ ∃ body, o = .httpOk body ∧ body.success = some true
            ∧ processImageWithAPI rand w h render file o
                = { file := file, detections := body.detections, stats := body.stats
                    resultImage := body.result_image
                    totalDetections := body.total_detections }) := by
  refine ⟨rfl, fun _ => rfl, rfl, ?_, ?_, ?_⟩
  · intro body hb
    simp [processImageWithAPI, detectTry, hb]
  · intro body hb
    simp [processImageWithAPI, detectTry, hb]
  · intro o
    cases o with
    | netError => exact Or.inl rfl
    | httpFail status => exact Or.inl rfl
    | httpOkBadJson => exact Or.inl rfl
    | httpOk body =>
        by_cases hb : body.success = some true
        · exact Or.inr ⟨body, rfl, hb, by simp [processImageWithAPI, detectTry, hb]⟩
        · exact Or.inl (by simp [processImageWithAPI, detectTry, hb])

/-- C5 amended witness: a body whose success field is missing falls back to
the simulation at a concrete environment. -/
theorem claim_detect_never_raises_witness :
    processImageWithAPI (fun _ => 0) 100 100 (fun _ _ _ => "") "f"
        (FetchOutcome.httpOk
          { success := none, error := none, detections := none
            stats := none, result_image := none, total_detections := none })
      = processImageSimulation (fun _ => 0) 100 100 (fun _ _ _ => "") "f" :=
  (claim_detect_never_raises (fun _ => 0) 100 100 (fun _ _ _ => "") "f").2.2.2.1
    { success := none, error := none, detections := none
      stats := none, result_image := none, total_detections := none }
    (by decide)

/-- C1 counterexample: the fallback output carries no marker distinguishing it
from real inference output.  At a concrete environment, a successful backend
response produces a result value identical to the one produced when the fetch
fails and the synthetic fallback runs, so no consumer of the result can tell
the two apart. -/
theorem claim_fallback_marker_cex :
    processImageWithAPI (fun _ => 0) 100 100 (fun _ _ _ => "rendered") "photo.jpg"
        (FetchOutcome.httpOk
          { success := some true, error := none
            detections := some [{ cls := "with_mask", confidence := 1/2
                                  bbox := { x := 0, y := 0, width := 10, height := 10 } }]
            stats := some { with_mask := 1, without_mask := 0, mask_weared_incorrect := 0 }
            result_image := some "rendered", total_detections := some 1 })
      = processImageWithAPI (fun _ => 0) 100 100 (fun _ _ _ => "rendered") "photo.jpg"
          FetchOutcome.netError := by
  show _ = processImageSimulation (fun _ => 0) 100 100 (fun _ _ _ => "rendered") "photo.jpg"
  norm_num [processImageWithAPI, detectTry, processImageSimulation,
    simulateYOLODetection, simDetection, calculateStatsFromDetections, statsStep,
    classes, List.range_succ]

/-- C1 amended: whenever the detection call fails (the try block throws), the
result is the simulation fallback, whose detections field holds between 1 and
4 fabricated detections; but the result carries no synthetic marker. -/
theorem claim_fallback_count (rand : RandStream) (w h : ℚ)
    (render : ℚ → ℚ → List Detection → String) (file : String) (o : FetchOutcome)
    (hr : ∀ n, 0 ≤ rand n ∧ rand n < 1)
    (hfail : ∀ r, detectTry file o ≠ Except.ok r) :
    (processImageWithAPI rand w h render file o).detections
        = some (simulateYOLODetection rand w h)
  ∧ 1 ≤ (simulateYOLODetection rand w h).length
  ∧ (simulateYOLODetection rand w h).length ≤ 4 := by
  have hsim : processImageWithAPI rand w h render file o
      = processImageSimulation rand w h render file := by
    unfold processImageWithAPI
    cases hde : detectTry file o with
    | ok r => exact absurd hde (hfail r)
    | error e => rfl
  refine ⟨by rw [hsim]; rfl, ?_, ?_⟩
  · simp [simulateYOLODetection]
  · simpa [simulateYOLODetection] using
      (floorCount_bounds (rand 0) (hr 0).1 (hr 0).2).2

/-- C1 amended witness: with the zero stream and a failing fetch, the fallback
result holds exactly the simulated detections, and their number is between 1
and 4. -/
theorem claim_fallback_count_witness :
    (processImageWithAPI (fun _ => 0) 100 100 (fun _ _ _ => "") "f"
        FetchOutcome.netError).detections
      = some (simulateYOLODetection (fun _ => 0) 100 100)
  ∧ 1 ≤ (simulateYOLODetection (fun _ => 0) 100 100).length
  ∧ (simulateYOLODetection (fun _ => 0) 100 100).length ≤ 4 :=
  claim_fallback_count (fun _ => 0) 100 100 (fun _ _ _ => "") "f" FetchOutcome.netError
    (fun _ => by norm_num) (by intro r h; simp [detectTry] at h)

/-- A state whose countdown interval has been cleared is a fixed point of the
timer: no further tick changes it. -/
theorem runTicks_fixed (k : ℕ) (s : MonState) (h : s.countdownCleared = true) :
    runTicks k s = s := by
  induction k with
  | zero => rfl
  | succ k ih =>
      rw [runTicks, Function.iterate_succ_apply', ← runTicks, ih]
      simp [intervalTick, h]

/-- C7: starting the monitoring scheduler with interval 30 triggers no capture
during the first 30 one-second ticks after the immediate countdown update,
exactly one capture on the 30th tick, no further capture afterwards within
the cycle, and zero captures forever if stopMonitoring runs before the
countdown reaches zero. -/
theorem claim_monitoring_interval30 (n m k : ℕ) (hn : n < 30) (hm : m < 30) :
    (runTicks n (scheduleNextCapture 30)).captures = 0
  ∧ (runTicks 30 (scheduleNextCapture 30)).captures = 1
  ∧ (runTicks (30 + k) (scheduleNextCapture 30)).captures = 1
  ∧ (runTicks k (stopMonitoringState (runTicks m (scheduleNextCapture 30)))).captures
      = 0 := by
  have hball : ∀ j, j < 30 → (runTicks j (scheduleNextCapture 30)).captures = 0 := by
    decide
  have h30 : runTicks 30 (scheduleNextCapture 30)
      = { monitoringActive := true, countdown := 0, countdownCleared := true
          captures := 1 } := by
    decide
  refine ⟨hball n hn, by rw [h30], ?_, ?_⟩
  · have hsplit : runTicks (30 + k) (scheduleNextCapture 30)
        = runTicks k (runTicks 30 (scheduleNextCapture 30)) := by
      rw [runTicks, runTicks, runTicks, Nat.add_comm, Function.iterate_add_apply]
    rw [hsplit, h30, runTicks_fixed k _ rfl]
  · have hstopped : (stopMonitoringState (runTicks m (scheduleNextCapture 30))).countdownCleared
        = true := rfl
    rw [runTicks_fixed k _ hstopped]
    show (runTicks m (scheduleNextCapture 30)).captures = 0
    exact hball m hm

/-- C7 witness: at tick 29 no capture has fired, at tick 30 exactly one has,
it is still the only one 100 ticks later, and stopping after 10 ticks keeps
the capture count at zero for the next 100 ticks. -/
theorem claim_monitoring_interval30_witness :
    (runTicks 29 (scheduleNextCapture 30)).captures = 0
  ∧ (runTicks 30 (scheduleNextCapture 30)).captures = 1
  ∧ (runTicks (30 + 100) (scheduleNextCapture 30)).captures = 1
  ∧ (runTicks 100 (stopMonitoringState (runTicks 10 (scheduleNextCapture 30)))).captures
      = 0 :=
  claim_monitoring_interval30 29 10 100 (by decide) (by decide)

/-- C8: cropping never fails.  createCroppedFaces yields one canvas per
detection; each canvas keeps the bounding-box dimensions; every painted pixel
comes from an in-bounds source coordinate of the image shifted by the box
origin (the region is clipped to the image bounds); and when the clipped
region has zero area the canvas is fully transparent, an empty placeholder. -/
theorem claim_crop_clipped (img : CanvasImage) (detections : List Detection)
    (bbox : BBox) :
    (createCroppedFaces img detections).length = detections.length
  ∧ (∀ d ∈ detections, cropFace img d.bbox ∈ createCroppedFaces img detections)
  ∧ (cropFace img bbox).width = bbox.width
  ∧ (cropFace img bbox).height = bbox.height
  ∧ (∀ dx dy c, (cropFace img bbox).pixel dx dy = some c →
        0 ≤ dx ∧ dx < bbox.width ∧ 0 ≤ dy ∧ dy < bbox.height
          ∧ 0 ≤ bbox.x + dx ∧ bbox.x + dx < img.width
          ∧ 0 ≤ bbox.y + dy ∧ bbox.y + dy < img.height
          ∧ c = img.pixel (bbox.x + dx) (bbox.y + dy))
  ∧ (clippedRegionEmpty img bbox → ∀ dx dy, (cropFace img bbox).pixel dx dy = none) := by
  refine ⟨by simp [createCroppedFaces], ?_, rfl, rfl, ?_, ?_⟩
  · intro d hd
    exact List.mem_map_of_mem _ hd
  · intro dx dy c hpx
    simp only [cropFace, drawImageCrop] at hpx
    split_ifs at hpx with hcond
    obtain ⟨h1, h2, h3, h4, h5, h6, h7, h8⟩ := hcond
    exact ⟨h1, h2, h3, h4, h5, h6, h7, h8, (Option.some.inj hpx).symm⟩
  · intro hempty dx dy
    simp only [cropFace, drawImageCrop]
    rw [if_neg]
    rintro ⟨h1, h2, h3, h4, h5, h6, h7, h8⟩
    rcases hempty with he | he | he | he | he | he <;> linarith

/-- C8 witness: a box fully outside a 4 by 4 image produces a fully
transparent canvas at a sample pixel, and an empty detection list produces no
canvases. -/
theorem claim_crop_clipped_witness :
    (cropFace { width := 4, height := 4, pixel := fun x y => x + y }
        { x := 10, y := 10, width := 2, height := 2 }).pixel 1 1 = none
  ∧ (createCroppedFaces { width := 4, height := 4, pixel := fun x y => x + y } []).length
      = 0 :=
  ⟨(claim_crop_clipped { width := 4, height := 4, pixel := fun x y => x + y } []
        { x := 10, y := 10, width := 2, height := 2 }).2.2.2.2.2
      (Or.inr (Or.inr (Or.inr (Or.inl (by norm_num))))) 1 1,
   (claim_crop_clipped { width := 4, height := 4, pixel := fun x y => x + y } []
        { x := 10, y := 10, width := 2, height := 2 }).1⟩

/-- C9 counterexample: with a measured text width of 50, a with_mask detection
at confidence 19/20 whose box top is at y = 100 gets its label chip drawn from
y = 75 to y = 100: the chip bottom edge coincides with the box top edge, 100,
and is not 8 pixels above it, 92, refuting the claimed chip position.  The
text baseline, not the chip bottom, sits 8 pixels above the box top. -/
theorem claim_annotator_chip_cex :
    drawBoundingBox (fun _ => 50)
        { cls := "with_mask", confidence := 19/20
          bbox := { x := 10, y := 100, width := 50, height := 60 } }
      = [ DrawCmd.strokeRect "#38a169" 3 10 100 50 60
        , DrawCmd.fillRect "#38a169" 10 75 60 25
        , DrawCmd.fillText "white" "with mask 95.0%" 15 92 ]
  ∧ (75 : ℚ) + 25 = 100
  ∧ ((75 : ℚ) + 25 ≠ 100 - 8) := by
  refine ⟨?_, by norm_num, by norm_num⟩
  norm_num [drawBoundingBox, labelText, toFixed1, boxColor]
  decide

/-- C9 amended: drawBoundingBox strokes the box with line width 3 in the class
color (green, red, amber for the known classes, gray otherwise) and fills a
label chip of width measured-text-width plus 10 and height 25 whose bottom
edge coincides with the box top edge; the white label, class name with its
first underscore spaced plus the confidence percentage to one decimal, has
its baseline 8 pixels above the box top. -/
theorem claim_annotator_commands (measureText : String → ℚ) (d : Detection) :
    drawBoundingBox measureText d
      = [ DrawCmd.strokeRect (boxColor d.cls) 3 d.bbox.x d.bbox.y d.bbox.width d.bbox.height
        , DrawCmd.fillRect (boxColor d.cls) d.bbox.x (d.bbox.y - 25)
            (measureText (labelText d) + 10) 25
        , DrawCmd.fillText "white" (labelText d) (d.bbox.x + 5) (d.bbox.y - 8) ]
  ∧ (d.bbox.y - 25) + 25 = d.bbox.y
  ∧ boxColor "with_mask" = "#38a169"
  ∧ boxColor "without_mask" = "#e53e3e"
  ∧ boxColor "mask_weared_incorrect" = "#d69e2e"
  ∧ (d.cls ≠ "with_mask" → d.cls ≠ "without_mask" →
        d.cls ≠ "mask_weared_incorrect" → boxColor d.cls = "#4a5568") := by
  refine ⟨rfl, by ring, rfl, rfl, rfl, ?_⟩
  intro h1 h2 h3
  simp [boxColor, h1, h2, h3]

/-- C9 amended witness: a detection with the unknown class person is drawn in
gray. -/
theorem claim_annotator_commands_witness :
    boxColor "person" = "#4a5568" :=
  (claim_annotator_commands (fun _ => 0)
      { cls := "person", confidence := 1/2
        bbox := { x := 0, y := 0, width := 1, height := 1 } }).2.2.2.2.2
    (by decide) (by decide) (by decide)
